import Mathlib

/-!
Verification of `contrail_persistence.py`, a single-pass interactive analyzer
that estimates contrail persistence at flight levels (200-300 hPa) from a
pasted radiosonde profile.

Shallow embedding conventions:
* Python floats in the physics formulas are modelled as real numbers.
* `datetime.datetime` values (year, month, day, hour, minute; seconds are
  always zero in this program) are modelled by the `DateTime` structure;
  `datetime` subtraction and `timedelta` comparison are modelled through a
  proleptic-Gregorian ordinal-day count (`toordinal`, as in Python's
  `date.toordinal`) scaled to minutes.
* `datetime.strptime` is modelled faithfully on the two format strings the
  program uses, including the fact that an unknown directive (such as the
  `%-m` appearing in the program's second format string) makes Python's
  `_strptime` raise `ValueError` during format compilation, before any
  input matching happens.
* The pandas pipeline (filtering, `idxmax`, exact-match lookup) is modelled
  over ordered lists of level records.
-/

/-! ## Humidity engine (src lines 20-32) -/

noncomputable section

/-- Embedding of `saturation_vapor_pressure_ice` (line 20). -/
def saturation_vapor_pressure_ice (T_c : ℝ) : ℝ :=
  6.112 * Real.exp ((22.46 * T_c) / (T_c + 272.62))

/-- Embedding of `saturation_vapor_pressure_water` (line 23). -/
def saturation_vapor_pressure_water (Td_c : ℝ) : ℝ :=
  6.112 * Real.exp ((17.67 * Td_c) / (Td_c + 243.5))

/-- Embedding of `calculate_rhi` (line 26): `(e / e_si) * 100` with
`e = saturation_vapor_pressure_water Td_c` and
`e_si = saturation_vapor_pressure_ice T_c`. -/
def calculate_rhi (T_c Td_c : ℝ) : ℝ :=
  (saturation_vapor_pressure_water Td_c / saturation_vapor_pressure_ice T_c) * 100

end

/-! ## Calendar model (Python `datetime.date` / `datetime.datetime`) -/

/-- A Python `datetime.datetime` as used by this program: the program only
ever produces values with zero seconds and microseconds, so those fields
are omitted. -/
structure DateTime where
  year : Nat
  month : Nat
  day : Nat
  hour : Nat
  minute : Nat
deriving DecidableEq, Repr

/-- Gregorian leap-year rule, as in Python's `calendar.isleap`. -/
def isLeap (y : Nat) : Bool :=
  y % 4 == 0 && (y % 100 != 0 || y % 400 == 0)

/-- Days in month `m` of year `y` (Python `calendar.monthrange`). -/
def daysInMonth (y m : Nat) : Nat :=
  if m = 2 then (if isLeap y then 29 else 28)
  else if m = 4 ∨ m = 6 ∨ m = 9 ∨ m = 11 then 30
  else 31

/-- Days in year `y` strictly before month `m` (the `_DAYS_BEFORE_MONTH`
table of Python's `datetime`, with the leap correction). -/
def daysBeforeMonth (y m : Nat) : Nat :=
  let base : Nat :=
    match m with
    | 1 => 0 | 2 => 31 | 3 => 59 | 4 => 90 | 5 => 120 | 6 => 151
    | 7 => 181 | 8 => 212 | 9 => 243 | 10 => 273 | 11 => 304 | 12 => 334
    | _ => 0
  base + (if 2 < m ∧ isLeap y then 1 else 0)

/-- Days strictly before January 1 of year `y` (Python's
`_days_before_year`); the subtrahend never exceeds the rest, so natural
subtraction is exact. -/
def daysBeforeYear (y : Nat) : Nat :=
  365 * (y - 1) + (y - 1) / 4 + (y - 1) / 400 - (y - 1) / 100

/-- Proleptic-Gregorian day number of a calendar date, as in Python's
`date.toordinal` (day 1 is January 1 of year 1). -/
def toordinal (y m d : Nat) : Nat :=
  daysBeforeYear y + daysBeforeMonth y m + d

/-- Minutes since the proleptic epoch; `datetime` subtraction in this
program (whose values carry no seconds) is the difference of these. -/
def toMinutes (dt : DateTime) : Int :=
  (toordinal dt.year dt.month dt.day : Int) * 1440 + (dt.hour : Int) * 60 + (dt.minute : Int)

/-- Embedding of `img_date + timedelta(days=1)` (line 42) for a valid
calendar date: the next calendar day, with month and year rollover. -/
def nextDayD (y m d : Nat) : Nat × Nat × Nat :=
  if d < daysInMonth y m then (y, m, d + 1)
  else if m < 12 then (y, m + 1, 1)
  else (y + 1, 1, 1)

/-- A well-formed `datetime.datetime` value (Python enforces these bounds
in the constructor). -/
def ValidDT (dt : DateTime) : Prop :=
  1 ≤ dt.year ∧ 1 ≤ dt.month ∧ dt.month ≤ 12 ∧ 1 ≤ dt.day ∧
    dt.day ≤ daysInMonth dt.year dt.month ∧ dt.hour ≤ 23 ∧ dt.minute ≤ 59

instance (dt : DateTime) : Decidable (ValidDT dt) := by
  unfold ValidDT; infer_instance

/-! ## Time resolver (src lines 34-70) -/

/-- Embedding of `suggest_closest_obs_time` (lines 34-43). -/
def suggest_closest_obs_time (img : DateTime) : DateTime × String :=
  if img.hour < 6 then
    (⟨img.year, img.month, img.day, 0, 0⟩, "00Z")
  else if img.hour < 18 then
    (⟨img.year, img.month, img.day, 12, 0⟩, "12Z")
  else
    let nd := nextDayD img.year img.month img.day
    (⟨nd.1, nd.2.1, nd.2.2, 0, 0⟩, "00Z")

/-- The warning text of `check_time_proximity` (line 69), which names the
suggested alternative observation time. -/
def proximityMsg (suggested : String) : String :=
  "Observation time is more than 6 hours from image time. Suggested observation time: "
    ++ suggested

/-- Embedding of `check_time_proximity` (lines 66-70):
`abs(obs_dt - img_dt) > timedelta(hours=6)` becomes a strict comparison of
the minute distance with 360. -/
def check_time_proximity (obs img : DateTime) (suggested : String) : Bool × String :=
  if 360 < (toMinutes obs - toMinutes img).natAbs then (false, proximityMsg suggested)
  else (true, "")

/-! ## `datetime.strptime` model

Python's `datetime.strptime` is implemented in pure Python (`_strptime.py`)
on every platform.  The format string is compiled to a regular expression;
a `%` followed by a character that is not a known directive raises
`ValueError ("... is a bad directive ...")` during this compilation, before
the input string is even looked at.  The compiled regex is matched
case-insensitively against the input, whitespace in the format matching one
or more whitespace characters, and a match that does not consume the whole
input raises `ValueError` ("unconverted data remains").  The model below
covers the directives `%H %M %d %m %b %Y` (with the numeric-field
alternations of `_strptime.TimeRE`, including their 2-digit/1-digit
backtracking) and treats every other directive as invalid, exactly as
`_strptime` does for the two format strings this program passes. -/

/-- Digit value of a character, if it is a decimal digit. -/
def readDigit (c : Char) : Option Nat :=
  if '0' ≤ c ∧ c ≤ '9' then some (c.toNat - '0'.toNat) else none

/-- Read exactly one digit. -/
def read1 (s : List Char) : Option (Nat × List Char) :=
  match s with
  | c :: rest => (readDigit c).map (fun v => (v, rest))
  | [] => none

/-- Read exactly two digits. -/
def read2 (s : List Char) : Option (Nat × List Char) :=
  match s with
  | c1 :: c2 :: rest =>
    match readDigit c1, readDigit c2 with
    | some a, some b => some (10 * a + b, rest)
    | _, _ => none
  | _ => none

/-- Read exactly four digits (the `%Y` pattern of `_strptime`). -/
def read4 (s : List Char) : Option (Nat × List Char) :=
  match s with
  | c1 :: c2 :: c3 :: c4 :: rest =>
    match readDigit c1, readDigit c2, readDigit c3, readDigit c4 with
    | some a, some b, some c, some d => some (((10 * a + b) * 10 + c) * 10 + d, rest)
    | _, _, _, _ => none
  | _ => none

/-- Case-insensitive abbreviated month names (`%b`, C locale). -/
def month3 (c1 c2 c3 : Char) : Option Nat :=
  match c1.toLower, c2.toLower, c3.toLower with
  | 'j', 'a', 'n' => some 1
  | 'f', 'e', 'b' => some 2
  | 'm', 'a', 'r' => some 3
  | 'a', 'p', 'r' => some 4
  | 'm', 'a', 'y' => some 5
  | 'j', 'u', 'n' => some 6
  | 'j', 'u', 'l' => some 7
  | 'a', 'u', 'g' => some 8
  | 's', 'e', 'p' => some 9
  | 'o', 'c', 't' => some 10
  | 'n', 'o', 'v' => some 11
  | 'd', 'e', 'c' => some 12
  | _, _, _ => none

/-- Fields accumulated while matching a format, with the defaults
`_strptime` supplies for fields the format does not mention. -/
structure DTFields where
  y : Nat := 1900
  mo : Nat := 1
  d : Nat := 1
  h : Nat := 0
  mi : Nat := 0
deriving DecidableEq, Repr

/-- The directives `_strptime.TimeRE` supports that this model covers; the
two format strings of the program use no others (apart from the invalid
`%-`, which is not a directive at all). -/
def directiveOK (c : Char) : Bool :=
  c = 'H' || c = 'M' || c = 'd' || c = 'm' || c = 'b' || c = 'Y'

/-- Format compilation check of `_strptime`: a `%` followed by anything
other than a supported directive raises `ValueError` regardless of the
input being parsed. -/
def formatValid : List Char → Bool
  | [] => true
  | '%' :: c :: fs => directiveOK c && formatValid fs
  | '%' :: [] => false
  | _ :: fs => formatValid fs

/-- Regex-style matcher for a compiled format against an input, carrying
the accumulated fields; alternation backtracking (two digits, then one) is
modelled with `Option.orElse`.  Literal characters match case-insensitively
and a whitespace character in the format matches one or more whitespace
characters of the input, as in the regex `_strptime` builds.  The whole
input must be consumed ("unconverted data remains" otherwise). -/
def matchFmt : List Char → List Char → DTFields → Option DTFields
  | [], s, acc => if s.isEmpty then some acc else none
  | '%' :: c :: fs, s, acc =>
    if c = 'H' then
      (match read2 s with
       | some (v, rest) => if v ≤ 23 then matchFmt fs rest {acc with h := v} else none
       | none => none).orElse
      (fun _ =>
        match read1 s with
        | some (v, rest) => matchFmt fs rest {acc with h := v}
        | none => none)
    else if c = 'M' then
      (match read2 s with
       | some (v, rest) => if v ≤ 59 then matchFmt fs rest {acc with mi := v} else none
       | none => none).orElse
      (fun _ =>
        match read1 s with
        | some (v, rest) => matchFmt fs rest {acc with mi := v}
        | none => none)
    else if c = 'd' then
      (match read2 s with
       | some (v, rest) =>
         if 1 ≤ v ∧ v ≤ 31 then matchFmt fs rest {acc with d := v} else none
       | none => none).orElse
      (fun _ =>
        match read1 s with
        | some (v, rest) => if 1 ≤ v then matchFmt fs rest {acc with d := v} else none
        | none => none)
    else if c = 'm' then
      (match read2 s with
       | some (v, rest) =>
         if 1 ≤ v ∧ v ≤ 12 then matchFmt fs rest {acc with mo := v} else none
       | none => none).orElse
      (fun _ =>
        match read1 s with
        | some (v, rest) => if 1 ≤ v then matchFmt fs rest {acc with mo := v} else none
        | none => none)
    else if c = 'b' then
      match s with
      | c1 :: c2 :: c3 :: rest =>
        match month3 c1 c2 c3 with
        | some v => matchFmt fs rest {acc with mo := v}
        | none => none
      | _ => none
    else if c = 'Y' then
      match read4 s with
      | some (v, rest) => matchFmt fs rest {acc with y := v}
      | none => none
    else none
  | '%' :: [], _, _ => none
  | c :: fs, s, acc =>
    if c.isWhitespace then
      match s with
      | s0 :: s1 =>
        if s0.isWhitespace then matchFmt fs (s1.dropWhile Char.isWhitespace) acc else none
      | [] => none
    else
      match s with
      | s0 :: s1 => if s0.toLower = c.toLower then matchFmt fs s1 acc else none
      | [] => none

/-- Embedding of `datetime.strptime(input, fmt)` restricted to the
observable outcome (`some` parsed value, or `none` for any `ValueError`:
bad directive, no match, leftover input, or the `datetime` constructor
rejecting the matched fields). -/
def strptime (fmt s : String) : Option DateTime :=
  if formatValid fmt.toList then
    match matchFmt fmt.toList s.toList {} with
    | some f =>
      if 1 ≤ f.y ∧ 1 ≤ f.mo ∧ f.mo ≤ 12 ∧ 1 ≤ f.d ∧ f.d ≤ daysInMonth f.y f.mo then
        some ⟨f.y, f.mo, f.d, f.h, f.mi⟩
      else none
    | none => none
  else none

/-- First format string tried by `parse_time_input` (line 47). -/
def fmtA : String := "%HZ %d %b %Y"

/-- Second format string tried by `parse_time_input` (line 50), exactly as
written in the source: it contains `%-m`, which is not a valid `strptime`
directive. -/
def fmtB : String := "%Y-%-m-%d %H:%M"

/-- The try/except chain of `parse_time_input` (lines 46-55): format A
first, then format B. -/
def rawParse (s : String) : Option DateTime :=
  (strptime fmtA s).orElse (fun _ => strptime fmtB s)

/-- Observable outcome of `parse_time_input` (lines 45-64).  The source
returns `(None, time_str)` after printing an error; the two distinct error
messages (unrecognized format, line 52, and non-synoptic hour, line 60)
are modelled as distinct constructors, each carrying the optional
suggested time the function would print alongside. -/
inductive ParseResult where
  | success (dt : DateTime)
  | formatError (suggested : Option String)
  | synopticError (suggested : Option String)
deriving DecidableEq, Repr

/-- Embedding of `parse_time_input` (lines 45-64). -/
def parse_time_input (s : String) (allow_any_time : Bool) (suggested : Option String) :
    ParseResult :=
  match rawParse s with
  | none => .formatError suggested
  | some dt =>
    if allow_any_time then .success dt
    else if (dt.hour = 0 ∨ dt.hour = 12) ∧ dt.minute ≤ 15 then .success dt
    else .synopticError suggested

/-! ## Profile table ingestion (src lines 115-124) -/

/-- A parsed whitespace-delimited table, as produced by
`pd.read_csv(..., delim_whitespace=True)`: a header row of column names and
data rows of numbers (floats modelled as rationals). -/
structure RawTable where
  header : List String
  rows : List (List ℚ)
deriving DecidableEq, Repr

/-- The errors raised inside the `try` block (lines 118-121); both are
caught at line 122, printed, and the run exits with no report. -/
inductive ProcError where
  | missingColumns (msg : String)
  | outOfBand (msg : String)
deriving DecidableEq, Repr

/-- Column renaming of line 117: `PRES→P`, `TEMP→T`, `DWPT→Td`; every
other column name is left unchanged. -/
def renameCol (c : String) : String :=
  if c = "PRES" then "P" else if c = "TEMP" then "T" else if c = "DWPT" then "Td" else c

/-- The renamed header (`df.rename(columns=...)`, line 117). -/
def renamedHeader (h : List String) : List String := h.map renameCol

/-- Values of column `c` of the table (`df[c]`): the entry of each row at
the first index where the header equals `c`. -/
def getCol (hdr : List String) (rows : List (List ℚ)) (c : String) : List ℚ :=
  rows.filterMap (fun r => r.get? (hdr.findIdx (· == c)))

/-- Embedding of the validation in the `try` block (lines 116-121): rename
the columns, require `P`, `T`, `Td` all present, then require at least one
pressure in `[200, 300]`; on failure the driver prints the error and exits
(no report), modelled by `Except.error`. -/
def processTable (t : RawTable) : Except ProcError RawTable :=
  let hdr := renamedHeader t.header
  if "P" ∈ hdr ∧ "T" ∈ hdr ∧ "Td" ∈ hdr then
    if (getCol hdr t.rows "P").any (fun p => decide (200 ≤ p ∧ p ≤ 300)) then
      .ok ⟨hdr, t.rows⟩
    else .error (.outOfBand "Data must include at least one level between 200 and 300 hPa.")
  else .error (.missingColumns "Data must include PRES, TEMP, and DWPT columns.")

/-! ## Level selector (src lines 126-144)

A row of the dataframe after line 126: pressure, temperature, dewpoint and
the derived `RHi` column.  The selector logic (`between` filter, exact
lookup, `idxmax`) only compares and copies these values, so the `RHi`
entries — computed by `calculate_rhi` in floating point at line 126 — are
carried as data of an ordered field. -/

/-- A dataframe row after the `RHi` column is added (line 126). -/
structure Level where
  P : ℚ
  T : ℚ
  Td : ℚ
  RHi : ℚ
deriving DecidableEq, Repr

/-- Embedding of `df[df['P'].between(200, 300)]` (line 127): the rows with
pressure in the closed interval `[200, 300]`, in input order. -/
def flightBand (df : List Level) : List Level :=
  df.filter (fun l => decide (200 ≤ l.P ∧ l.P ≤ 300))

/-- The scan of `Series.idxmax`: keep the current best, replacing it only
on a strictly greater `RHi`, so the first occurrence of the maximum wins. -/
def idxmaxAux : List Level → Level → Level
  | [], best => best
  | l :: ls, best => idxmaxAux ls (if best.RHi < l.RHi then l else best)

/-- Embedding of lines 136-144: `df_flight.loc[df_flight['RHi'].idxmax()]`
when the flight band is non-empty, `None` otherwise. -/
def selectMaximum : List Level → Option Level
  | [] => none
  | l :: ls => some (idxmaxAux ls l)

/-- Embedding of the canonical-level lookup (lines 130-135): membership
test `level in df_flight['P'].values`, then `.iloc[0]` of the matching
rows — the first row in input order whose pressure equals the level
exactly; `None` when absent.  No interpolation. -/
def lookupLevel (fb : List Level) (lvl : ℚ) : Option ℚ :=
  if fb.any (fun l => decide (l.P = lvl)) then
    (fb.find? (fun l => decide (l.P = lvl))).map Level.RHi
  else none

/-- The `levels = [200.0, 250.0, 300.0]` loop of lines 128-135. -/
def selectCanonicalLevels (fb : List Level) : List (ℚ × Option ℚ) :=
  [200, 250, 300].map (fun lvl => (lvl, lookupLevel fb lvl))

/-- The computed payload of the report (lines 128-144). -/
structure AnalysisOutput where
  canonical : List (ℚ × Option ℚ)
  maxLevel : Option Level
deriving DecidableEq, Repr

/-- The analysis computed from the profile alone (lines 126-144). -/
def computeResults (df : List Level) : AnalysisOutput :=
  { canonical := selectCanonicalLevels (flightBand df)
    maxLevel := selectMaximum (flightBand df) }

/-- Embedding of the driver steps of lines 92-95 and 126-144: the
proximity check produces at most a printed warning (first component) and
the analysis is computed unconditionally (second component). -/
def runAnalysis (obs img : DateTime) (suggested : String) (df : List Level) :
    Option String × AnalysisOutput :=
  let r := check_time_proximity obs img suggested
  ((if r.1 then none else some r.2), computeResults df)

/-! ## Claim theorems -/

/-- Claim C1 (refuted by the code, which contradicts its own prompts): the
second format string of `parse_time_input` contains the invalid directive
`%-m`, so `strptime` raises `ValueError` for every input against it and no
text of the form `YYYY-MM-DD HH:MM` ever parses — both the spec's example
`2025-04-12 00:00` and the program's own prompt example `2025-04-12 12:00`
yield a `FormatError` instead of a timestamp. -/
theorem iso_format_never_parses :
    formatValid fmtB.toList = false ∧
    strptime fmtB "2025-04-12 00:00" = none ∧
    parse_time_input "2025-04-12 00:00" false none = .formatError none ∧
    parse_time_input "2025-04-12 12:00" true none = .formatError none :=
  ⟨by decide, by decide, by decide, by decide⟩

/-- Claim C2: `calculate_rhi T Td` equals
`100 * (6.112 * exp (17.67 * Td / (Td + 243.5))) / (6.112 * exp (22.46 * T / (T + 272.62)))`
— the actual vapor pressure from the dewpoint with the water-phase formula
over the ice-phase saturation reference at the ambient temperature — away
from the singular denominators. -/
theorem calculate_rhi_formula (T Td : ℝ) (_hT : T + 272.62 ≠ 0) (_hTd : Td + 243.5 ≠ 0) :
    calculate_rhi T Td =
      100 * (6.112 * Real.exp ((17.67 * Td) / (Td + 243.5))) /
        (6.112 * Real.exp ((22.46 * T) / (T + 272.62))) := by
  unfold calculate_rhi saturation_vapor_pressure_water saturation_vapor_pressure_ice
  ring

/-- Witness for `calculate_rhi_formula` at `T = -40`, `Td = -45`. -/
theorem calculate_rhi_formula_witness :
    ((-40 : ℝ) + 272.62 ≠ 0) ∧ ((-45 : ℝ) + 243.5 ≠ 0) ∧
      calculate_rhi (-40) (-45) =
        100 * (6.112 * Real.exp ((17.67 * (-45)) / ((-45) + 243.5))) /
          (6.112 * Real.exp ((22.46 * (-40)) / ((-40) + 272.62))) :=
  ⟨by norm_num, by norm_num, calculate_rhi_formula (-40) (-45) (by norm_num) (by norm_num)⟩

/-- Claim C4: `suggest_closest_obs_time` maps an image hour below 6 to the
same date at 00:00 labelled "00Z", an hour in `[6, 18)` to the same date at
12:00 labelled "12Z", and an hour of 18 or later to the next calendar date
at 00:00 labelled "00Z". -/
theorem suggest_closest_obs_time_rule (img : DateTime) :
    (img.hour < 6 →
      suggest_closest_obs_time img = (⟨img.year, img.month, img.day, 0, 0⟩, "00Z")) ∧
    (6 ≤ img.hour → img.hour < 18 →
      suggest_closest_obs_time img = (⟨img.year, img.month, img.day, 12, 0⟩, "12Z")) ∧
    (18 ≤ img.hour →
      suggest_closest_obs_time img =
        (⟨(nextDayD img.year img.month img.day).1,
          (nextDayD img.year img.month img.day).2.1,
          (nextDayD img.year img.month img.day).2.2, 0, 0⟩, "00Z")) := by
  unfold suggest_closest_obs_time
  refine ⟨fun h => by rw [if_pos h], fun h1 h2 => ?_, fun h => ?_⟩
  · rw [if_neg (by omega), if_pos h2]
  · rw [if_neg (by omega), if_neg (by omega)]

/-- Witness for `suggest_closest_obs_time_rule` at the sample hours 5, 6,
17, 18 and 23 named by the spec. -/
theorem suggest_closest_obs_time_rule_witness :
    suggest_closest_obs_time ⟨2025, 4, 12, 5, 59⟩ = (⟨2025, 4, 12, 0, 0⟩, "00Z") ∧
    suggest_closest_obs_time ⟨2025, 4, 12, 6, 0⟩ = (⟨2025, 4, 12, 12, 0⟩, "12Z") ∧
    suggest_closest_obs_time ⟨2025, 4, 12, 17, 59⟩ = (⟨2025, 4, 12, 12, 0⟩, "12Z") ∧
    suggest_closest_obs_time ⟨2025, 4, 12, 18, 0⟩ = (⟨2025, 4, 13, 0, 0⟩, "00Z") ∧
    suggest_closest_obs_time ⟨2025, 12, 31, 23, 59⟩ = (⟨2026, 1, 1, 0, 0⟩, "00Z") := by
  refine ⟨(suggest_closest_obs_time_rule _).1 (by norm_num),
    (suggest_closest_obs_time_rule _).2.1 (by norm_num) (by norm_num),
    (suggest_closest_obs_time_rule _).2.1 (by norm_num) (by norm_num),
    ((suggest_closest_obs_time_rule _).2.2 (by norm_num)).trans (by decide),
    ((suggest_closest_obs_time_rule _).2.2 (by norm_num)).trans (by decide)⟩

/-- Claim C5: once the text has parsed to a timestamp, `parse_time_input`
with `allow_any_time = false` accepts it exactly when the hour is 0 or 12
and the minute is at most 15, fails with the synoptic-hour error (carrying
the given suggested fallback) in every other case, and applies no such
constraint when `allow_any_time = true`. -/
theorem parse_time_input_synoptic (s : String) (sug : Option String) (dt : DateTime)
    (h : rawParse s = some dt) :
    (parse_time_input s false sug = .success dt ↔
      (dt.hour = 0 ∨ dt.hour = 12) ∧ dt.minute ≤ 15) ∧
    (parse_time_input s false sug = .synopticError sug ↔
      ¬((dt.hour = 0 ∨ dt.hour = 12) ∧ dt.minute ≤ 15)) ∧
    parse_time_input s true sug = .success dt := by
  by_cases hc : (dt.hour = 0 ∨ dt.hour = 12) ∧ dt.minute ≤ 15
  · simp [parse_time_input, h, hc]
  · simp [parse_time_input, h, hc]

/-- Witness for `parse_time_input_synoptic`: `00Z 12 Apr 2025` parses to
hour 0, minute 0 and is accepted; `03Z 12 Apr 2025` parses to hour 3 and is
rejected as non-synoptic. -/
theorem parse_time_input_synoptic_witness :
    rawParse "00Z 12 Apr 2025" = some ⟨2025, 4, 12, 0, 0⟩ ∧
    parse_time_input "00Z 12 Apr 2025" false (some "s") = .success ⟨2025, 4, 12, 0, 0⟩ ∧
    rawParse "03Z 12 Apr 2025" = some ⟨2025, 4, 12, 3, 0⟩ ∧
    parse_time_input "03Z 12 Apr 2025" false (some "s") = .synopticError (some "s") := by
  refine ⟨by decide, ?_, by decide, ?_⟩
  · exact (parse_time_input_synoptic "00Z 12 Apr 2025" (some "s") ⟨2025, 4, 12, 0, 0⟩
      (by decide)).1.mpr (by decide)
  · exact (parse_time_input_synoptic "03Z 12 Apr 2025" (some "s") ⟨2025, 4, 12, 3, 0⟩
      (by decide)).2.1.mpr (by decide)

/-- Claim C6: the driver emits the proximity warning (which names the
suggested alternative) exactly when observation and image time are more
than 6 hours (360 minutes) apart, and the computed analysis is the same
function of the profile either way — the check is advisory only. -/
theorem check_time_proximity_advisory (obs img : DateTime) (sug : String) (df : List Level) :
    ((runAnalysis obs img sug df).1 = some (proximityMsg sug) ↔
      360 < (toMinutes obs - toMinutes img).natAbs) ∧
    ((runAnalysis obs img sug df).1 = none ↔
      (toMinutes obs - toMinutes img).natAbs ≤ 360) ∧
    (runAnalysis obs img sug df).2 = computeResults df := by
  by_cases h : 360 < (toMinutes obs - toMinutes img).natAbs
  · simp [runAnalysis, check_time_proximity, h]
  · simp [runAnalysis, check_time_proximity, h]
    omega

/-- Witness for `check_time_proximity_advisory`: a 7-hour separation warns
(and the analysis is still computed); a 6-hour separation does not. -/
theorem check_time_proximity_advisory_witness :
    (runAnalysis ⟨2025, 4, 12, 0, 0⟩ ⟨2025, 4, 12, 7, 0⟩ "00Z 12 Apr 2025" []).1 =
      some (proximityMsg "00Z 12 Apr 2025") ∧
    (runAnalysis ⟨2025, 4, 12, 0, 0⟩ ⟨2025, 4, 12, 7, 0⟩ "00Z 12 Apr 2025" []).2 =
      computeResults [] ∧
    (runAnalysis ⟨2025, 4, 12, 6, 0⟩ ⟨2025, 4, 12, 0, 0⟩ "s" []).1 = none := by
  refine ⟨(check_time_proximity_advisory _ _ _ _).1.mpr (by decide),
    (check_time_proximity_advisory _ _ _ _).2.2,
    (check_time_proximity_advisory _ _ _ _).2.1.mpr (by decide)⟩

/-- Claim C3 (refuted as stated): the column check runs after the renaming
`PRES→P`, `TEMP→T`, `DWPT→Td`, so a header that already uses the internal
names `P T Td` passes the check even though `PRES` and `TEMP` and `DWPT`
are all absent from the pasted header, and the run proceeds — no
missing-column error. -/
theorem missing_column_check_counterexample :
    "PRES" ∉ (["P", "T", "Td"] : List String) ∧
    "TEMP" ∉ (["P", "T", "Td"] : List String) ∧
    "DWPT" ∉ (["P", "T", "Td"] : List String) ∧
    processTable ⟨["P", "T", "Td"], [[250, -50, -52]]⟩ =
      .ok ⟨["P", "T", "Td"], [[250, -50, -52]]⟩ := by
  refine ⟨by decide, by decide, by decide, ?_⟩
  rfl

/-- Claim C3 as amended: if after the renaming the header lacks any of the
canonical names `P`, `T`, `Td` — in particular whenever a mandatory raw
column `PRES`/`TEMP`/`DWPT` is absent and not shadowed by an
already-renamed name — processing fails with the single missing-column
`ValueError` (whose fixed message names all three required columns), the
run terminates with no report (`Except.error`), and the exception is
caught rather than crashing the program. -/
theorem missing_column_check_amended (t : RawTable)
    (h : ¬("P" ∈ renamedHeader t.header ∧ "T" ∈ renamedHeader t.header ∧
      "Td" ∈ renamedHeader t.header)) :
    processTable t =
      .error (.missingColumns "Data must include PRES, TEMP, and DWPT columns.") := by
  simp only [processTable]
  rw [if_neg h]

/-- Witness for `missing_column_check_amended`: a header with `DWPT`
absent (the spec's own test case) fails with the missing-column error. -/
theorem missing_column_check_amended_witness :
    ¬("P" ∈ renamedHeader ["PRES", "TEMP", "HGHT"] ∧
      "T" ∈ renamedHeader ["PRES", "TEMP", "HGHT"] ∧
      "Td" ∈ renamedHeader ["PRES", "TEMP", "HGHT"]) ∧
    processTable ⟨["PRES", "TEMP", "HGHT"], [[250, -50, 10000]]⟩ =
      .error (.missingColumns "Data must include PRES, TEMP, and DWPT columns.") :=
  ⟨by decide, missing_column_check_amended _ (by decide)⟩

/-- The `idxmax` scan never returns something smaller than the running
best or than any later element. -/
theorem idxmaxAux_ge (ls : List Level) (best : Level) :
    best.RHi ≤ (idxmaxAux ls best).RHi ∧ ∀ l ∈ ls, l.RHi ≤ (idxmaxAux ls best).RHi := by
  induction ls generalizing best with
  | nil => simp [idxmaxAux]
  | cons l ls ih =>
    have hstep : idxmaxAux (l :: ls) best = idxmaxAux ls (if best.RHi < l.RHi then l else best) :=
      rfl
    by_cases h : best.RHi < l.RHi
    · rw [hstep, if_pos h]
      obtain ⟨h1, h2⟩ := ih l
      refine ⟨le_trans (le_of_lt h) h1, fun x hx => ?_⟩
      rcases List.mem_cons.mp hx with rfl | hx
      · exact h1
      · exact h2 x hx
    · rw [hstep, if_neg h]
      obtain ⟨h1, h2⟩ := ih best
      refine ⟨h1, fun x hx => ?_⟩
      rcases List.mem_cons.mp hx with rfl | hx
      · exact le_trans (not_lt.mp h) h1
      · exact h2 x hx

/-- Decomposition of the `idxmax` scan: the scanned list splits around the
returned element, everything before it being strictly smaller (so the
first occurrence of the maximum is the one returned) and everything after
it at most as large. -/
theorem idxmaxAux_decomp (ls : List Level) (best : Level) :
    ∃ xs ys, best :: ls = xs ++ idxmaxAux ls best :: ys ∧
      (∀ x ∈ xs, x.RHi < (idxmaxAux ls best).RHi) ∧
      (∀ y ∈ ys, y.RHi ≤ (idxmaxAux ls best).RHi) := by
  induction ls generalizing best with
  | nil => exact ⟨[], [], by simp [idxmaxAux], by simp, by simp⟩
  | cons l ls ih =>
    have hstep : idxmaxAux (l :: ls) best = idxmaxAux ls (if best.RHi < l.RHi then l else best) :=
      rfl
    by_cases h : best.RHi < l.RHi
    · rw [hstep, if_pos h]
      obtain ⟨xs, ys, heq, hlt, hle⟩ := ih l
      refine ⟨best :: xs, ys, ?_, ?_, hle⟩
      · rw [List.cons_append, ← heq]
      · intro x hx
        rcases List.mem_cons.mp hx with rfl | hx
        · exact lt_of_lt_of_le h (idxmaxAux_ge ls l).1
        · exact hlt x hx
    · rw [hstep, if_neg h]
      obtain ⟨xs, ys, heq, hlt, hle⟩ := ih best
      cases xs with
      | nil =>
        simp only [List.nil_append] at heq
        injection heq with hb hl
        refine ⟨[], l :: ls, by simp [← hb], by simp, fun y hy => ?_⟩
        rcases List.mem_cons.mp hy with rfl | hy
        · exact le_trans (not_lt.mp h) (hb ▸ le_refl _)
        · exact hle y (hl ▸ hy)
      | cons x xs =>
        rw [List.cons_append] at heq
        injection heq with hb hl
        refine ⟨best :: l :: xs, ys, ?_, fun z hz => ?_, hle⟩
        · rw [List.cons_append, List.cons_append, ← hl]
        · have hbestlt : best.RHi < (idxmaxAux ls best).RHi :=
            hb ▸ hlt x (List.mem_cons_self x xs)
          rcases List.mem_cons.mp hz with rfl | hz
          · exact hbestlt
          · rcases List.mem_cons.mp hz with rfl | hz
            · exact lt_of_le_of_lt (not_lt.mp h) hbestlt
            · exact hlt z (List.mem_cons_of_mem x hz)

/-- Claim C7: over any profile, `selectMaximum` of the flight band returns
`none` exactly when no level has pressure in `[200, 300]`; otherwise it
returns a flight-band level whose `RHi` is greatest among all levels with
pressure in `[200, 300]`, and among equals the one occurring first in
input order (everything before it in the flight band is strictly
smaller). -/
theorem selectMaximum_spec (df : List Level) :
    ((∀ l ∈ df, ¬(200 ≤ l.P ∧ l.P ≤ 300)) → selectMaximum (flightBand df) = none) ∧
    (∀ m, selectMaximum (flightBand df) = some m →
      (200 ≤ m.P ∧ m.P ≤ 300) ∧ m ∈ df ∧
      (∀ l ∈ df, 200 ≤ l.P → l.P ≤ 300 → l.RHi ≤ m.RHi) ∧
      ∃ xs ys, flightBand df = xs ++ m :: ys ∧ ∀ x ∈ xs, x.RHi < m.RHi) := by
  constructor
  · intro h
    have hnil : flightBand df = [] := by
      rw [flightBand, List.filter_eq_nil_iff]
      intro l hl
      simpa using h l hl
    rw [hnil]
    rfl
  · intro m hm
    cases hfb : flightBand df with
    | nil => rw [hfb] at hm; exact absurd hm (by simp [selectMaximum])
    | cons l ls =>
      rw [hfb] at hm
      simp only [selectMaximum, Option.some.injEq] at hm
      obtain ⟨xs, ys, heq, hlt, _⟩ := idxmaxAux_decomp ls l
      rw [hm] at heq hlt
      have hmemfb : m ∈ flightBand df := by
        rw [hfb, heq]
        exact List.mem_append_right xs (List.mem_cons_self m ys)
      have hmemf := List.mem_filter.mp hmemfb
      have hband : 200 ≤ m.P ∧ m.P ≤ 300 := by simpa using hmemf.2
      refine ⟨hband, hmemf.1, fun l' hl' h200 h300 => ?_, xs, ys, hfb ▸ heq, hlt⟩
      have hl'fb : l' ∈ flightBand df := by
        rw [flightBand]
        exact List.mem_filter.mpr ⟨hl', by simpa using And.intro h200 h300⟩
      rw [hfb] at hl'fb
      rcases List.mem_cons.mp hl'fb with rfl | hl'mem
      · exact hm ▸ (idxmaxAux_ge ls l').1
      · exact hm ▸ (idxmaxAux_ge ls l).2 l' hl'mem

/-- Witness for `selectMaximum_spec`: an out-of-band level with huge `RHi`
is ignored, and of the two tied flight-band maxima the earlier row wins. -/
theorem selectMaximum_spec_witness :
    selectMaximum (flightBand
        [⟨500, 0, 0, 999⟩, ⟨300, -40, -45, 120⟩, ⟨250, -50, -52, 120⟩, ⟨200, -55, -58, 80⟩]) =
      some ⟨300, -40, -45, 120⟩ ∧
    (200 ≤ (⟨300, -40, -45, 120⟩ : Level).P ∧ (⟨300, -40, -45, 120⟩ : Level).P ≤ 300) ∧
    (⟨300, -40, -45, 120⟩ : Level) ∈
      [⟨500, 0, 0, 999⟩, ⟨300, -40, -45, 120⟩, ⟨250, -50, -52, 120⟩, ⟨200, -55, -58, 80⟩] := by
  refine ⟨by decide, ?_, ?_⟩
  · exact ((selectMaximum_spec
      [⟨500, 0, 0, 999⟩, ⟨300, -40, -45, 120⟩, ⟨250, -50, -52, 120⟩, ⟨200, -55, -58, 80⟩]).2
      ⟨300, -40, -45, 120⟩ (by decide)).1
  · exact ((selectMaximum_spec
      [⟨500, 0, 0, 999⟩, ⟨300, -40, -45, 120⟩, ⟨250, -50, -52, 120⟩, ⟨200, -55, -58, 80⟩]).2
      ⟨300, -40, -45, 120⟩ (by decide)).2.1

/-- The first element satisfying a predicate is the one `find?` returns. -/
theorem find_first_of_split (p : Level → Bool) (xs ys : List Level) (l : Level)
    (hxs : ∀ x ∈ xs, p x = false) (hl : p l = true) :
    (xs ++ l :: ys).find? p = some l := by
  induction xs with
  | nil => simp [List.find?_cons, hl]
  | cons x xs ih =>
    rw [List.cons_append, List.find?_cons, hxs x (List.mem_cons_self x xs)]
    exact ih (fun z hz => hxs z (List.mem_cons_of_mem x hz))

/-- Claim C8: each canonical pressure (200, 250, 300 hPa) is looked up by
exact equality against the flight-band rows: the pair
`(lvl, lookupLevel fb lvl)` is what `selectCanonicalLevels` reports, the
result is `none` whenever no row carries exactly that pressure (no
interpolation), and with duplicate pressures the `RHi` of the first
matching row in input order is used. -/
theorem selectCanonicalLevels_exact (fb : List Level) (lvl : ℚ)
    (hlvl : lvl ∈ ([200, 250, 300] : List ℚ)) :
    ((lvl, lookupLevel fb lvl) ∈ selectCanonicalLevels fb) ∧
    ((∀ l ∈ fb, l.P ≠ lvl) → lookupLevel fb lvl = none) ∧
    (∀ xs l ys, fb = xs ++ l :: ys → l.P = lvl → (∀ x ∈ xs, x.P ≠ lvl) →
      lookupLevel fb lvl = some l.RHi) := by
  refine ⟨List.mem_map.mpr ⟨lvl, hlvl, rfl⟩, ?_, ?_⟩
  · intro h
    have hany : fb.any (fun l => decide (l.P = lvl)) = false := by
      simp only [List.any_eq_false, decide_eq_true_eq]
      exact h
    simp [lookupLevel, hany]
  · intro xs l ys heq hP hxs
    have hany : fb.any (fun x => decide (x.P = lvl)) = true := by
      refine List.any_eq_true.mpr ⟨l, ?_, by simp [hP]⟩
      rw [heq]
      exact List.mem_append_right xs (List.mem_cons_self l ys)
    have hfind : fb.find? (fun x => decide (x.P = lvl)) = some l := by
      rw [heq]
      exact find_first_of_split _ xs ys l
        (fun x hx => decide_eq_false (hxs x hx)) (by simp [hP])
    simp [lookupLevel, hany, hfind]

/-- Witness for `selectCanonicalLevels_exact`: with two rows at 250 hPa the
first one's `RHi` is reported, and 200 hPa (absent) reports `none`. -/
theorem selectCanonicalLevels_exact_witness :
    lookupLevel [⟨250, -50, -52, 110⟩, ⟨250, -49, -51, 90⟩, ⟨300, -40, -45, 80⟩] 250 =
      some 110 ∧
    lookupLevel [⟨250, -50, -52, 110⟩, ⟨250, -49, -51, 90⟩, ⟨300, -40, -45, 80⟩] 200 = none ∧
    ((250 : ℚ), some (110 : ℚ)) ∈
      selectCanonicalLevels [⟨250, -50, -52, 110⟩, ⟨250, -49, -51, 90⟩, ⟨300, -40, -45, 80⟩] := by
  have h1 := (selectCanonicalLevels_exact
    [⟨250, -50, -52, 110⟩, ⟨250, -49, -51, 90⟩, ⟨300, -40, -45, 80⟩] 250 (by norm_num)).2.2
    [] ⟨250, -50, -52, 110⟩ [⟨250, -49, -51, 90⟩, ⟨300, -40, -45, 80⟩] rfl rfl (by simp)
  have h2 := (selectCanonicalLevels_exact
    [⟨250, -50, -52, 110⟩, ⟨250, -49, -51, 90⟩, ⟨300, -40, -45, 80⟩] 200 (by norm_num)).2.1
    (by decide)
  exact ⟨h1, h2, h1 ▸ (selectCanonicalLevels_exact
    [⟨250, -50, -52, 110⟩, ⟨250, -49, -51, 90⟩, ⟨300, -40, -45, 80⟩] 250 (by norm_num)).1⟩

/-- Claim C9: `calculate_rhi` is strictly increasing in the dewpoint for a
fixed temperature and strictly decreasing in the temperature for a fixed
dewpoint, on the domain where the two formula denominators are positive
(which contains the whole physical temperature range). -/
theorem calculate_rhi_monotone (T T' Td Td' : ℝ) :
    (0 < Td + 243.5 → 0 < Td' + 243.5 → Td < Td' →
      calculate_rhi T Td < calculate_rhi T Td') ∧
    (0 < T + 272.62 → 0 < T' + 272.62 → T < T' →
      calculate_rhi T' Td < calculate_rhi T Td) := by
  constructor
  · intro h1 h2 h3
    have hice : 0 < saturation_vapor_pressure_ice T := by
      unfold saturation_vapor_pressure_ice
      positivity
    have harg : (17.67 * Td) / (Td + 243.5) < (17.67 * Td') / (Td' + 243.5) := by
      rw [div_lt_div_iff h1 h2]
      nlinarith
    have hw : saturation_vapor_pressure_water Td < saturation_vapor_pressure_water Td' := by
      unfold saturation_vapor_pressure_water
      nlinarith [Real.exp_lt_exp.mpr harg]
    unfold calculate_rhi
    rw [div_eq_mul_inv, div_eq_mul_inv]
    exact mul_lt_mul_of_pos_right
      (mul_lt_mul_of_pos_right hw (inv_pos.mpr hice)) (by norm_num)
  · intro h1 h2 h3
    have hw : 0 < saturation_vapor_pressure_water Td := by
      unfold saturation_vapor_pressure_water
      positivity
    have hiceT : 0 < saturation_vapor_pressure_ice T := by
      unfold saturation_vapor_pressure_ice
      positivity
    have harg : (22.46 * T) / (T + 272.62) < (22.46 * T') / (T' + 272.62) := by
      rw [div_lt_div_iff h1 h2]
      nlinarith
    have hi : saturation_vapor_pressure_ice T < saturation_vapor_pressure_ice T' := by
      unfold saturation_vapor_pressure_ice
      nlinarith [Real.exp_lt_exp.mpr harg]
    unfold calculate_rhi
    exact mul_lt_mul_of_pos_right (div_lt_div_of_pos_left hw hiceT hi) (by norm_num)

/-- Witness for `calculate_rhi_monotone` at typical upper-troposphere
values. -/
theorem calculate_rhi_monotone_witness :
    (0 < (-45 : ℝ) + 243.5) ∧ (0 < (-44 : ℝ) + 243.5) ∧ ((-45 : ℝ) < -44) ∧
    calculate_rhi (-40) (-45) < calculate_rhi (-40) (-44) ∧
    (0 < (-40 : ℝ) + 272.62) ∧ (0 < (-39 : ℝ) + 272.62) ∧ ((-40 : ℝ) < -39) ∧
    calculate_rhi (-39) (-45) < calculate_rhi (-40) (-45) := by
  refine ⟨by norm_num, by norm_num, by norm_num, ?_, by norm_num, by norm_num, by norm_num, ?_⟩
  · exact (calculate_rhi_monotone (-40) (-39) (-45) (-44)).1
      (by norm_num) (by norm_num) (by norm_num)
  · exact (calculate_rhi_monotone (-40) (-39) (-45) (-44)).2
      (by norm_num) (by norm_num) (by norm_num)

/-- The year-before-day count grows by the length of year `y` when
stepping from year `y` to year `y + 1`. -/
theorem daysBeforeYear_succ (y : Nat) (hy : 1 ≤ y) :
    daysBeforeYear (y + 1) = daysBeforeYear y + (if isLeap y then 366 else 365) := by
  unfold daysBeforeYear
  by_cases hL : isLeap y
  · have h4 : y % 4 = 0 ∧ (y % 100 ≠ 0 ∨ y % 400 = 0) := by
      simpa [isLeap, Bool.and_eq_true, beq_iff_eq, Bool.or_eq_true, bne_iff_ne] using hL
    rw [if_pos hL]
    omega
  · have h4 : ¬(y % 4 = 0 ∧ (y % 100 ≠ 0 ∨ y % 400 = 0)) := by
      simpa [isLeap, Bool.and_eq_true, beq_iff_eq, Bool.or_eq_true, bne_iff_ne] using hL
    rw [if_neg hL]
    by_cases h4a : y % 4 = 0
    · have hbc : ¬(y % 100 ≠ 0 ∨ y % 400 = 0) := fun h => h4 ⟨h4a, h⟩
      push_neg at hbc
      obtain ⟨h100, h400⟩ := hbc
      omega
    · omega

/-- Stepping to the next calendar day adds exactly one to the proleptic
ordinal, across month and year rollovers. -/
theorem toordinal_nextDay (y m d : Nat) (hy : 1 ≤ y) (hm1 : 1 ≤ m) (hm2 : m ≤ 12)
    (hd1 : 1 ≤ d) (hd2 : d ≤ daysInMonth y m) :
    toordinal (nextDayD y m d).1 (nextDayD y m d).2.1 (nextDayD y m d).2.2 =
      toordinal y m d + 1 := by
  unfold nextDayD
  by_cases hd : d < daysInMonth y m
  · rw [if_pos hd]
    simp only [toordinal]
    omega
  · rw [if_neg hd]
    have hdEq : d = daysInMonth y m := le_antisymm hd2 (not_lt.mp hd)
    by_cases hm : m < 12
    · rw [if_pos hm]
      have key : daysBeforeMonth y (m + 1) = daysBeforeMonth y m + daysInMonth y m := by
        interval_cases m <;> cases hL : isLeap y <;>
          simp [daysBeforeMonth, daysInMonth, hL]
      simp only [toordinal]
      omega
    · rw [if_neg hm]
      have hmEq : m = 12 := by omega
      subst hmEq
      have hd31 : d = 31 := by simpa [daysInMonth] using hdEq
      subst hd31
      have hb1 : daysBeforeMonth (y + 1) 1 = 0 := by
        simp [daysBeforeMonth]
      have hb12 : daysBeforeMonth y 12 = 334 + (if isLeap y then 1 else 0) := by
        by_cases hL : isLeap y <;> simp [daysBeforeMonth, hL]
      simp only [toordinal, hb1, hb12, daysBeforeYear_succ y hy]
      by_cases hL : isLeap y <;> simp [hL]

/-- The proximity check stays silent within the 6-hour window. -/
theorem check_time_proximity_ok (obs img : DateTime) (sug : String)
    (h : (toMinutes obs - toMinutes img).natAbs ≤ 360) :
    check_time_proximity obs img sug = (true, "") := by
  unfold check_time_proximity
  have hneg : ¬ 360 < (toMinutes obs - toMinutes img).natAbs := by omega
  rw [if_neg hneg]

/-- Claim C10: for every valid image timestamp the suggested observation
time is at a synoptic hour (0 or 12) with minute 0 (hence minute at most
15) — so it passes the `allow_any_time = false` validation of
`parse_time_input` — and lies within 6 hours of the image time, so
`check_time_proximity` of the suggestion against the image time never
warns. -/
theorem suggested_time_invariant (img : DateTime) (hv : ValidDT img) (sug : String) :
    ((suggest_closest_obs_time img).1.hour = 0 ∨ (suggest_closest_obs_time img).1.hour = 12) ∧
    (suggest_closest_obs_time img).1.minute ≤ 15 ∧
    check_time_proximity (suggest_closest_obs_time img).1 img sug = (true, "") := by
  obtain ⟨hy, hm1, hm2, hd1, hd2, hh, hmin⟩ := hv
  unfold suggest_closest_obs_time
  by_cases h6 : img.hour < 6
  · rw [if_pos h6]
    refine ⟨Or.inl rfl, by norm_num, check_time_proximity_ok _ _ _ ?_⟩
    simp [toMinutes]
    omega
  · rw [if_neg h6]
    by_cases h18 : img.hour < 18
    · rw [if_pos h18]
      refine ⟨Or.inr rfl, by norm_num, check_time_proximity_ok _ _ _ ?_⟩
      simp [toMinutes]
      omega
    · rw [if_neg h18]
      refine ⟨Or.inl rfl, by norm_num, check_time_proximity_ok _ _ _ ?_⟩
      have hroll := toordinal_nextDay img.year img.month img.day hy hm1 hm2 hd1 hd2
      simp [toMinutes]
      omega

/-- Witness for `suggested_time_invariant` at the hardest input, a valid
timestamp late on December 31: the suggestion rolls to January 1 of the
next year, is synoptic, and is within 6 hours. -/
theorem suggested_time_invariant_witness :
    ValidDT ⟨2025, 12, 31, 23, 59⟩ ∧
    ((suggest_closest_obs_time ⟨2025, 12, 31, 23, 59⟩).1.hour = 0 ∨
      (suggest_closest_obs_time ⟨2025, 12, 31, 23, 59⟩).1.hour = 12) ∧
    (suggest_closest_obs_time ⟨2025, 12, 31, 23, 59⟩).1.minute ≤ 15 ∧
    check_time_proximity (suggest_closest_obs_time ⟨2025, 12, 31, 23, 59⟩).1
      ⟨2025, 12, 31, 23, 59⟩ "00Z 01 Jan 2026" = (true, "") :=
  ⟨by decide, suggested_time_invariant ⟨2025, 12, 31, 23, 59⟩ (by decide) "00Z 01 Jan 2026"⟩
